import Mathlib

/-!
Shallow embedding of `sqlite-anyio` (file `src/sqlite_anyio/sqlite.py`):
an anyio wrapper around the synchronous `sqlite3` driver.  The embedding
models the interrupt-guarded dispatch (`_interruptible_dispatch`,
`guard_interrupt`, `cancel_detector`), the cancellation-shielded cleanup
paths (`Connection.close`, `Connection.rollback`, `Cursor.close`), the
scoped-use exit (`Connection.__aexit__`), the `exception_logger` handler,
and the per-connection capacity-1 worker slot (`anyio.CapacityLimiter(1)`).

Cancellation state is passed explicitly as booleans: `cancelledBefore`
(the caller's scope is already cancelled when the operation is dispatched)
and `cancelledDuring` (the scope becomes cancelled while the blocking call
runs).  A native sqlite3 call is abstracted by its outcome, a `CallRes`:
it either returns a value or raises a driver error; cancellation errors
can only be introduced by the wrapper's own `from_thread.check_cancelled`
calls and by the anyio machinery, which the embedding models explicitly.
-/

/-- An error raised by the native sqlite3 driver: `sqlite3.OperationalError`
(carrying its message, e.g. `"interrupted"`), `sqlite3.ProgrammingError`,
or any other driver exception identified by class name and message. -/
inductive DriverErr
  | opError (msg : String)
  | progError (msg : String)
  | other (name msg : String)
deriving DecidableEq, Repr

/-- The outcome of running one native synchronous sqlite3 call to completion:
it returns a value or raises a driver error.  A native call never raises a
cancellation exception of its own. -/
inductive CallRes (α : Type)
  | ok (v : α)
  | err (e : DriverErr)
deriving DecidableEq, Repr

/-- An exception as observed by the asynchronous caller: a driver error, or
the anyio cancellation exception (`anyio.get_cancelled_exc_class()`). -/
inductive Exc
  | driver (e : DriverErr)
  | cancelled
deriving DecidableEq, Repr

/-- Result of an awaited operation: a returned value or a raised exception. -/
inductive Outcome (α : Type)
  | ok (v : α)
  | raised (e : Exc)
deriving DecidableEq, Repr

/-- View a native call's outcome as a caller-observed outcome. -/
def CallRes.toOutcome {α : Type} : CallRes α → Outcome α
  | .ok v => .ok v
  | .err e => .raised (.driver e)

/-- Whether an outcome is the cancellation exception. -/
def Outcome.isCancelled {α : Type} : Outcome α → Bool
  | .raised .cancelled => true
  | _ => false

/-- The value of an outcome, when it is one. -/
def Outcome.toOption {α : Type} : Outcome α → Option α
  | .ok v => some v
  | .raised _ => none

/-- Trace of one run of `guard_interrupt` (the function handed to
`to_thread.run_sync` by `_interruptible_dispatch`):

* `result` — what the call returns or raises;
* `funcStarted` — whether `func(*args)`, the real sqlite3 call, was invoked;
* `needInterruptAfter` — the value of the `need_interrupt` flag once
  `guard_interrupt` has finished.

Source behaviour: under the lock it calls `from_thread.check_cancelled()`
(raising the cancellation exception if the caller's scope is already
cancelled, before `need_interrupt` is ever set) and then sets
`need_interrupt = True`; it runs `func(*args)` under `try/finally` with the
`finally` clearing `need_interrupt`; an `sqlite3.OperationalError` whose
message is `"interrupted"` triggers a second `from_thread.check_cancelled()`
before the bare `raise` re-raises the original error. -/
structure GuardTrace (α : Type) where
  result : Outcome α
  funcStarted : Bool
  needInterruptAfter : Bool
deriving DecidableEq, Repr

/-- Embedding of `guard_interrupt` from `_interruptible_dispatch`.
`cancelledAtStart` is the cancellation state seen by the first
`check_cancelled`, `cancelledAtErrCheck` the state seen by the
`check_cancelled` in the `except sqlite3.OperationalError` branch, and
`call` the behaviour of `func(*args)`. -/
def guard_interrupt {α : Type} (cancelledAtStart cancelledAtErrCheck : Bool)
    (call : CallRes α) : GuardTrace α :=
  if cancelledAtStart then
    ⟨.raised .cancelled, false, false⟩
  else
    match call with
    | .ok v => ⟨.ok v, true, false⟩
    | .err (.opError msg) =>
        if msg = "interrupted" && cancelledAtErrCheck then
          ⟨.raised .cancelled, true, false⟩
        else
          ⟨.raised (.driver (.opError msg)), true, false⟩
    | .err e => ⟨.raised (.driver e), true, false⟩

/-- Outcome of `_interruptible_dispatch` as the caller observes it: a value,
a single exception, or an exception group that the `except* Exception`
handler did not unwrap (it only unwraps groups of exactly one exception). -/
inductive DispatchOutcome (α : Type)
  | ok (v : α)
  | raised (e : Exc)
  | raisedGroup (es : List Exc)
deriving DecidableEq, Repr

/-- Whether a dispatch outcome is an exception group. -/
def DispatchOutcome.isGroup {α : Type} : DispatchOutcome α → Bool
  | .raisedGroup _ => true
  | _ => false

/-- The value of a dispatch outcome, when it is one. -/
def DispatchOutcome.toOption {α : Type} : DispatchOutcome α → Option α
  | .ok v => some v
  | _ => none

/-- Trace of one `_interruptible_dispatch` call. -/
structure DispatchTrace (α : Type) where
  result : DispatchOutcome α
  funcStarted : Bool
deriving DecidableEq, Repr

/-- The task-group body of `_interruptible_dispatch`: it starts
`cancel_detector` (which catches its own cancellation and never re-raises,
so it contributes no exception to the group) and awaits
`to_thread.run_sync(guard_interrupt, limiter=self._limiter)`.  The group
completes with the value of `guard_interrupt`, or with the list of
exceptions raised in it.  When the caller's scope was cancelled while the
thread ran, the cancellation is delivered out of `to_thread.run_sync` even
if the thread returned a value ("If a Cancelled is to propagate, it should
come out of to_thread.run_sync"). -/
def taskGroupBody {α : Type} (cancelledBefore cancelledDuring : Bool)
    (call : CallRes α) : (Except (List Exc) α) × Bool :=
  let g := guard_interrupt cancelledBefore (cancelledBefore || cancelledDuring) call
  match g.result with
  | .ok v =>
      if cancelledDuring then (.error [.cancelled], g.funcStarted)
      else (.ok v, g.funcStarted)
  | .raised e => (.error [e], g.funcStarted)

/-- The `except* Exception` handler of `_interruptible_dispatch`: a group of
exactly one exception is unwrapped and that exception re-raised bare; any
other group is re-raised as a group. -/
def unwrapGroup {α : Type} (es : List Exc) : DispatchOutcome α :=
  match es with
  | [e] => .raised e
  | es => .raisedGroup es

/-- Embedding of `_interruptible_dispatch`. -/
def interruptible_dispatch {α : Type} (cancelledBefore cancelledDuring : Bool)
    (call : CallRes α) : DispatchTrace α :=
  match taskGroupBody cancelledBefore cancelledDuring call with
  | (.ok v, started) => ⟨.ok v, started⟩
  | (.error es, started) => ⟨unwrapGroup es, started⟩

/-- The interrupt loop of `cancel_detector`
(`while need_interrupt: real_connection.interrupt(); await ...checkpoint()`),
run over the successive values the loop reads from the `need_interrupt`
flag: it counts the `interrupt()` calls made before reading `false`, and is
`none` when the flag trace is exhausted while still `true`. -/
def interruptLoop : List Bool → Option Nat
  | [] => none
  | b :: rest => if b then (interruptLoop rest).map (· + 1) else some 0

/-- Trace of one awaited `to_thread.run_sync` call inside a cancel scope:
whether the synchronous call ran, and the outcome the awaiting task sees. -/
structure RunTrace (α : Type) where
  ran : Bool
  result : Outcome α
deriving DecidableEq, Repr

/-- Semantics of `await to_thread.run_sync(call, ...)` inside a cancel scope.
With `shielded = true` (the body of `with anyio.CancelScope(shield=True)`)
the pending cancellation of the surrounding scope is not delivered: the call
runs to completion and its own outcome is returned.  Unshielded, a pending
cancellation of the caller's scope is delivered at the await and the caller
observes the cancellation exception instead of the call's outcome. -/
def await_in_scope {α : Type} (shielded cancelPending : Bool)
    (call : CallRes α) : RunTrace α :=
  if cancelPending && !shielded then ⟨false, .raised .cancelled⟩
  else ⟨true, call.toOutcome⟩

/-- The native `sqlite3.Connection` object: identified by an id, with the
state bit that matters to the wrapper — whether `close()` has run. -/
structure RealConnection where
  id : Nat
  closed : Bool
deriving DecidableEq, Repr

/-- The native `sqlite3.Cursor` object. -/
structure RealCursor where
  id : Nat
  closed : Bool
deriving DecidableEq, Repr

/-- An `anyio.CapacityLimiter`: identified by an id, with its
`total_tokens` capacity. -/
structure CapacityLimiter where
  id : Nat
  total_tokens : Nat
deriving DecidableEq, Repr

/-- A logger, identified by name. -/
structure Logger where
  name : String
deriving DecidableEq, Repr

/-- The `(exc_type, exc_val, exc_tb)` triple handed to `__aexit__` and to an
exception handler: the exception's class name, message, and traceback id. -/
structure ExcInfo where
  excType : String
  excVal : String
  excTb : Nat
deriving DecidableEq, Repr

/-- The `Connection` wrapper object: the native connection, the optional
exception handler `(exc_type, exc_val, exc_tb, log) -> bool` (the triple is
bundled as `ExcInfo`), the logger, and the per-connection limiter. -/
structure Connection where
  real_connection : RealConnection
  exception_handler : Option (ExcInfo → Logger → Bool)
  log : Logger
  limiter : CapacityLimiter

/-- Embedding of `Connection.__init__`: stores the native connection, the
handler and the logger, and creates a fresh `anyio.CapacityLimiter(1)`. -/
def Connection.init (rc : RealConnection)
    (handler : Option (ExcInfo → Logger → Bool)) (log : Logger)
    (fresh_limiter_id : Nat) : Connection :=
  ⟨rc, handler, log, ⟨fresh_limiter_id, 1⟩⟩

/-- The `Cursor` wrapper object, `Cursor.__init__(real_cursor, limiter)`:
the native cursor and the limiter passed by its creator. -/
structure Cursor where
  real_cursor : RealCursor
  limiter : CapacityLimiter
deriving DecidableEq, Repr

/-- Behaviour of a native `sqlite3.Cursor` method (driver environment):
every operation on a closed cursor raises
`sqlite3.ProgrammingError("Cannot operate on a closed cursor.")`; otherwise
the call has its own outcome `normal`. -/
def RealCursor.callBehavior {α : Type} (rc : RealCursor)
    (normal : CallRes α) : CallRes α :=
  if rc.closed then .err (.progError "Cannot operate on a closed cursor.")
  else normal

/-- Behaviour of a native `sqlite3.Connection` method (driver environment):
every operation on a closed connection raises
`sqlite3.ProgrammingError("Cannot operate on a closed database.")`;
otherwise the call has its own outcome `normal`. -/
def RealConnection.callBehavior {α : Type} (rc : RealConnection)
    (normal : CallRes α) : CallRes α :=
  if rc.closed then .err (.progError "Cannot operate on a closed database.")
  else normal

/-- Embedding of `Connection.close`:
`with anyio.CancelScope(shield=True): await to_thread.run_sync(self._real_connection.close, limiter=self._limiter)`. -/
def Connection.closeOp (conn : Connection) (cancelPending : Bool)
    (call : CallRes Unit) : CapacityLimiter × RunTrace Unit :=
  (conn.limiter, await_in_scope true cancelPending call)

/-- Embedding of `Connection.rollback`:
`with anyio.CancelScope(shield=True): await to_thread.run_sync(self._real_connection.rollback, limiter=self._limiter)`. -/
def Connection.rollbackOp (conn : Connection) (cancelPending : Bool)
    (call : CallRes Unit) : CapacityLimiter × RunTrace Unit :=
  (conn.limiter, await_in_scope true cancelPending call)

/-- Embedding of `Cursor.close`:
`with anyio.CancelScope(shield=True): await to_thread.run_sync(self._real_cursor.close, limiter=self._limiter)`. -/
def Cursor.closeOp (cur : Cursor) (cancelPending : Bool)
    (call : CallRes Unit) : CapacityLimiter × RunTrace Unit :=
  (cur.limiter, await_in_scope true cancelPending call)

/-- Embedding of `Connection.commit`:
`await _interruptible_dispatch(self, self._real_connection.commit)`. -/
def Connection.commitOp (conn : Connection)
    (cancelledBefore cancelledDuring : Bool) (normal : CallRes Unit) :
    DispatchTrace Unit :=
  interruptible_dispatch cancelledBefore cancelledDuring
    (conn.real_connection.callBehavior normal)

/-- Embedding of `Connection.execute`: dispatches
`self._real_connection.execute(sql, parameters)` through
`_interruptible_dispatch` and, on success, wraps the returned native cursor
as `Cursor(real_cursor, self._limiter)`. -/
def Connection.executeOp (conn : Connection)
    (cancelledBefore cancelledDuring : Bool) (normal : CallRes RealCursor) :
    DispatchTrace RealCursor × Option Cursor :=
  let t := interruptible_dispatch cancelledBefore cancelledDuring
    (conn.real_connection.callBehavior normal)
  (t, t.result.toOption.map (fun rc => Cursor.mk rc conn.limiter))

/-- Embedding of `Connection.cursor`: a plain
`await to_thread.run_sync(self._real_connection.cursor, factory, limiter=self._limiter)`
(neither shielded nor interrupt-guarded), then
`Cursor(real_cursor, self._limiter)`. -/
def Connection.cursorOp (conn : Connection) (cancelPending : Bool)
    (normal : CallRes RealCursor) : RunTrace RealCursor × Option Cursor :=
  let r := await_in_scope false cancelPending
    (conn.real_connection.callBehavior normal)
  (r, r.result.toOption.map (fun rc => Cursor.mk rc conn.limiter))

/-- Embedding of `Cursor.execute`: dispatches
`self._real_cursor.execute(sql, parameters)` through
`_interruptible_dispatch`, then `Cursor(real_cursor, self._limiter)`. -/
def Cursor.executeOp (cur : Cursor)
    (cancelledBefore cancelledDuring : Bool) (normal : CallRes RealCursor) :
    DispatchTrace RealCursor × Option Cursor :=
  let t := interruptible_dispatch cancelledBefore cancelledDuring
    (cur.real_cursor.callBehavior normal)
  (t, t.result.toOption.map (fun rc => Cursor.mk rc cur.limiter))

/-- Embedding of `Cursor.executemany`, same shape as `Cursor.execute`. -/
def Cursor.executemanyOp (cur : Cursor)
    (cancelledBefore cancelledDuring : Bool) (normal : CallRes RealCursor) :
    DispatchTrace RealCursor × Option Cursor :=
  let t := interruptible_dispatch cancelledBefore cancelledDuring
    (cur.real_cursor.callBehavior normal)
  (t, t.result.toOption.map (fun rc => Cursor.mk rc cur.limiter))

/-- Embedding of `Cursor.executescript`, same shape as `Cursor.execute`. -/
def Cursor.executescriptOp (cur : Cursor)
    (cancelledBefore cancelledDuring : Bool) (normal : CallRes RealCursor) :
    DispatchTrace RealCursor × Option Cursor :=
  let t := interruptible_dispatch cancelledBefore cancelledDuring
    (cur.real_cursor.callBehavior normal)
  (t, t.result.toOption.map (fun rc => Cursor.mk rc cur.limiter))

/-- An observable step of `Connection.__aexit__`: the commit, the rollback,
or the invocation of the exception handler with the exception info and the
connection's logger. -/
inductive AexitEvent
  | commit
  | rollback
  | handlerInvoked (e : ExcInfo) (log : Logger)
deriving DecidableEq, Repr

/-- Trace of `Connection.__aexit__`: the events in order, and the value the
method returns (`none` models Python's `None`). -/
structure AexitTrace where
  events : List AexitEvent
  returned : Option Bool
deriving Repr

/-- Embedding of `Connection.__aexit__`: with no exception it commits and
returns `None`; with an exception it rolls back, then invokes the exception
handler (if one was supplied) with the exception info and `self._log`, and
returns the handler's verdict, `False` when there is no handler. -/
def Connection.aexit (conn : Connection) (exc : Option ExcInfo) : AexitTrace :=
  match exc with
  | none => ⟨[.commit], none⟩
  | some e =>
      match conn.exception_handler with
      | none => ⟨[.rollback], some false⟩
      | some h => ⟨[.rollback, .handlerInvoked e conn.log],
                   some (h e conn.log)⟩

/-- Python's `async with` semantics for the value `__aexit__` returns: the
exception is suppressed exactly when the value is truthy (`None` is falsy). -/
def suppresses : Option Bool → Bool
  | none => false
  | some b => b

/-- One record emitted to a logger: the logger it went to, its level,
message, and the exception value attached via `exc_info`. -/
structure LogRecord where
  logger : String
  level : String
  msg : String
  excVal : String
deriving DecidableEq, Repr

/-- Embedding of `exception_logger`: logs the exception at error level
(`log.error("SQLite exception", exc_info=exc_val)`) and returns `True`.
The result pairs the records emitted to `log` with the returned verdict. -/
def exception_logger (e : ExcInfo) (log : Logger) : List LogRecord × Bool :=
  ([⟨log.name, "ERROR", "SQLite exception", e.excVal⟩], true)

/-- A connection constructed with `exception_logger` installed as its
exception handler (`connect(..., exception_handler=exception_logger)`). -/
def connWithExceptionLogger (rc : RealConnection) (log : Logger)
    (fresh_limiter_id : Nat) : Connection :=
  Connection.init rc (some (fun e l => (exception_logger e l).2)) log
    fresh_limiter_id

/-- State of one `anyio.CapacityLimiter`: the limiter itself and the list of
tasks currently holding one of its tokens. -/
structure SlotState where
  limiter : CapacityLimiter
  holders : List Nat
deriving DecidableEq, Repr

/-- Transitions of a capacity limiter (the Worker Slot): a task may acquire
a token only while fewer than `total_tokens` are held, and releases the
token it holds when its blocking call completes. -/
inductive SlotStep : SlotState → SlotState → Prop
  | acquire (s : SlotState) (t : Nat)
      (hcap : s.holders.length < s.limiter.total_tokens)
      (hmem : t ∉ s.holders) :
      SlotStep s ⟨s.limiter, t :: s.holders⟩
  | release (s : SlotState) (t : Nat) (hmem : t ∈ s.holders) :
      SlotStep s ⟨s.limiter, s.holders.erase t⟩

/-- The slot states reachable from a fresh limiter with no holder, under any
interleaving of acquires and releases. -/
def SlotReachable (lim : CapacityLimiter) (s : SlotState) : Prop :=
  Relation.ReflTransGen SlotStep ⟨lim, []⟩ s

/-- An event of one dispatched call against the worker slot. -/
inductive SlotEvent
  | acquire (t : Nat)
  | run (t : Nat) (succeeded : Bool)
  | release (t : Nat)
deriving DecidableEq, Repr

/-- The slot events of one dispatched call by task `t`
(`to_thread.run_sync(..., limiter=self._limiter)`): the limiter token is
acquired, the call runs, and the token is released when the call completes,
whether it returned a value or raised. -/
def slotCallEvents {α : Type} (t : Nat) (call : CallRes α) : List SlotEvent :=
  match call with
  | .ok _ => [.acquire t, .run t true, .release t]
  | .err _ => [.acquire t, .run t false, .release t]

/-- A cursor created from an optional native cursor by
`Cursor(real_cursor, limiter)` carries the limiter it was given. -/
lemma limiter_of_map_mk {x : Option RealCursor} {lim : CapacityLimiter}
    {c : Cursor} (h : x.map (fun rc => Cursor.mk rc lim) = some c) :
    c.limiter = lim := by
  rcases Option.map_eq_some'.mp h with ⟨rc, _, rfl⟩
  rfl

/-- Invariant of the capacity-limiter transition system: starting from a
fresh limiter with no holder, every reachable state still belongs to that
limiter and holds at most `total_tokens` tokens. -/
lemma slot_invariant {lim : CapacityLimiter} {s : SlotState}
    (h : SlotReachable lim s) :
    s.limiter = lim ∧ s.holders.length ≤ lim.total_tokens := by
  induction h with
  | refl => exact ⟨rfl, by simp⟩
  | @tail b c _ step ih =>
      cases step with
      | acquire t hcap hmem =>
          refine ⟨ih.1, ?_⟩
          have h2 : b.holders.length + 1 ≤ b.limiter.total_tokens := hcap
          rw [ih.1] at h2
          simpa using h2
      | release t hmem =>
          exact ⟨ih.1,
            le_trans (List.Sublist.length_le (List.erase_sublist t b.holders)) ih.2⟩

/-- C1: an operation dispatched through the interrupt guard whose underlying
sqlite3 call raises `OperationalError` surfaces a cancellation outcome
exactly when that error's message is `"interrupted"` and the caller's
context was cancelled during the call; every other driver exception is
surfaced to the caller unchanged. -/
theorem interrupted_error_maps_to_cancellation :
    ∀ (α : Type) (cancelledDuring : Bool) (e : DriverErr),
      (interruptible_dispatch false cancelledDuring (CallRes.err e) :
          DispatchTrace α).result =
        if e = DriverErr.opError "interrupted" ∧ cancelledDuring = true
        then DispatchOutcome.raised Exc.cancelled
        else DispatchOutcome.raised (Exc.driver e) := by
  intro α cd e
  by_cases hmsg : e = DriverErr.opError "interrupted"
  · subst hmsg
    cases cd <;>
      simp [interruptible_dispatch, taskGroupBody, guard_interrupt, unwrapGroup]
  · cases cd <;> rcases e with msg | msg | ⟨n, m⟩ <;>
      simp_all [interruptible_dispatch, taskGroupBody, guard_interrupt, unwrapGroup]

/-- C2: `Connection.close`, `Connection.rollback` and `Cursor.close` run the
underlying native call to completion whether or not the calling context is
cancelled (the shielded scope never skips the call), return the call's own
outcome, and never raise a cancellation error. -/
theorem shielded_cleanup_runs_to_completion :
    ∀ (conn : Connection) (cur : Cursor) (cancelPending : Bool)
      (call : CallRes Unit),
      (conn.closeOp cancelPending call).2 = ⟨true, call.toOutcome⟩ ∧
      (conn.closeOp cancelPending call).2.result.isCancelled = false ∧
      (conn.rollbackOp cancelPending call).2 = ⟨true, call.toOutcome⟩ ∧
      (conn.rollbackOp cancelPending call).2.result.isCancelled = false ∧
      (cur.closeOp cancelPending call).2 = ⟨true, call.toOutcome⟩ ∧
      (cur.closeOp cancelPending call).2.result.isCancelled = false := by
  intro conn cur cp call
  rcases call with v | e <;> cases cp <;>
    simp [Connection.closeOp, Connection.rollbackOp, Cursor.closeOp,
      await_in_scope, CallRes.toOutcome, Outcome.isCancelled]

/-- C3: every connection is created with a capacity-1 limiter; under any
interleaving of acquires and releases at most one task ever holds the slot,
and each dispatched call acquires the slot first and releases it when the
call completes, whether it succeeded or failed. -/
theorem worker_slot_exclusive :
    ∀ (rc : RealConnection) (handler : Option (ExcInfo → Logger → Bool))
      (log : Logger) (lid : Nat) (s : SlotState) (t : Nat) (call : CallRes Nat),
      (Connection.init rc handler log lid).limiter.total_tokens = 1 ∧
      (SlotReachable (Connection.init rc handler log lid).limiter s →
        s.holders.length ≤ 1) ∧
      (slotCallEvents t call).head? = some (SlotEvent.acquire t) ∧
      (slotCallEvents t call).getLast? = some (SlotEvent.release t) := by
  intro rc handler log lid s t call
  refine ⟨rfl, ?_, ?_, ?_⟩
  · intro h
    exact (slot_invariant h).2
  · rcases call with v | e <;> rfl
  · rcases call with v | e <;> rfl

/-- C3 witness: a state in which one task holds the slot is reachable, and
the theorem bounds its holders by one. -/
theorem worker_slot_exclusive_witness :
    (⟨⟨9, 1⟩, [3]⟩ : SlotState).holders.length ≤ 1 :=
  (worker_slot_exclusive ⟨0, false⟩ none ⟨"log"⟩ 9 ⟨⟨9, 1⟩, [3]⟩ 3
      (CallRes.ok 0)).2.1
    (Relation.ReflTransGen.single
      (SlotStep.acquire ⟨⟨9, 1⟩, []⟩ 3 (by decide) (by decide)))

/-- C4: on clean exit of `async with` the connection commits and `__aexit__`
returns `None` (so nothing is suppressed); on abnormal exit it rolls back
first, then invokes the handler, if any, with the exception info and the
connection's logger, and the exception is suppressed exactly when the
handler returns true; with no handler it always propagates. -/
theorem aexit_commit_rollback_handler :
    ∀ (conn : Connection) (e : ExcInfo),
      conn.aexit none = ⟨[AexitEvent.commit], none⟩ ∧
      suppresses (conn.aexit none).returned = false ∧
      (conn.aexit (some e)).events.head? = some AexitEvent.rollback ∧
      (match conn.exception_handler with
       | none =>
           (conn.aexit (some e)).events = [AexitEvent.rollback] ∧
           suppresses (conn.aexit (some e)).returned = false
       | some h =>
           (conn.aexit (some e)).events =
             [AexitEvent.rollback, AexitEvent.handlerInvoked e conn.log] ∧
           suppresses (conn.aexit (some e)).returned = h e conn.log) := by
  intro conn e
  obtain ⟨rc, hd, lg, lim⟩ := conn
  cases hd <;> simp [Connection.aexit, suppresses]

/-- C5 counterexample: executing on a cursor whose native cursor is closed
is dispatched to the worker like any other call (`funcStarted = true`), and
the failure the caller sees is the driver's `ProgrammingError` raised inside
the dispatched call — not an error raised synchronously without dispatch. -/
theorem closed_cursor_execute_dispatch_counterexample :
    ((Cursor.mk ⟨0, true⟩ ⟨1, 1⟩).executeOp false false
        (CallRes.ok ⟨2, false⟩)).1.funcStarted = true ∧
    ((Cursor.mk ⟨0, true⟩ ⟨1, 1⟩).executeOp false false
        (CallRes.ok ⟨2, false⟩)).1.result =
      DispatchOutcome.raised
        (Exc.driver (DriverErr.progError "Cannot operate on a closed cursor.")) := by
  decide

/-- C5 (amended): operating on a Connection or Cursor after its close is
dispatched to the worker like any other call — there is no synchronous
pre-dispatch closed check.  On a closed cursor, `Cursor.execute`,
`Cursor.executemany` and `Cursor.executescript` run the native call in the
worker, which raises
`ProgrammingError("Cannot operate on a closed cursor.")`; on a closed
connection, `Connection.execute`, `Connection.commit` and
`Connection.cursor` likewise run the native call, which raises
`ProgrammingError("Cannot operate on a closed database.")`.  The driver
error is surfaced to the caller and no new cursor is produced. -/
theorem closed_handle_ops_dispatch_driver_error :
    ∀ (cid rcid lid cap : Nat) (handler : Option (ExcInfo → Logger → Bool))
      (log : Logger) (normal : CallRes RealCursor) (normalU : CallRes Unit),
      ((Cursor.mk ⟨rcid, true⟩ ⟨lid, cap⟩).executeOp false false normal).1.funcStarted
        = true ∧
      ((Cursor.mk ⟨rcid, true⟩ ⟨lid, cap⟩).executeOp false false normal).1.result =
        DispatchOutcome.raised
          (Exc.driver (DriverErr.progError "Cannot operate on a closed cursor.")) ∧
      ((Cursor.mk ⟨rcid, true⟩ ⟨lid, cap⟩).executeOp false false normal).2 = none ∧
      ((Cursor.mk ⟨rcid, true⟩ ⟨lid, cap⟩).executemanyOp false false normal).1.funcStarted
        = true ∧
      ((Cursor.mk ⟨rcid, true⟩ ⟨lid, cap⟩).executemanyOp false false normal).1.result =
        DispatchOutcome.raised
          (Exc.driver (DriverErr.progError "Cannot operate on a closed cursor.")) ∧
      ((Cursor.mk ⟨rcid, true⟩ ⟨lid, cap⟩).executemanyOp false false normal).2 = none ∧
      ((Cursor.mk ⟨rcid, true⟩ ⟨lid, cap⟩).executescriptOp false false normal).1.funcStarted
        = true ∧
      ((Cursor.mk ⟨rcid, true⟩ ⟨lid, cap⟩).executescriptOp false false normal).1.result =
        DispatchOutcome.raised
          (Exc.driver (DriverErr.progError "Cannot operate on a closed cursor.")) ∧
      ((Cursor.mk ⟨rcid, true⟩ ⟨lid, cap⟩).executescriptOp false false normal).2 = none ∧
      ((Connection.init ⟨cid, true⟩ handler log lid).executeOp false false normal).1.funcStarted
        = true ∧
      ((Connection.init ⟨cid, true⟩ handler log lid).executeOp false false normal).1.result =
        DispatchOutcome.raised
          (Exc.driver (DriverErr.progError "Cannot operate on a closed database.")) ∧
      ((Connection.init ⟨cid, true⟩ handler log lid).executeOp false false normal).2 = none ∧
      ((Connection.init ⟨cid, true⟩ handler log lid).commitOp false false normalU).funcStarted
        = true ∧
      ((Connection.init ⟨cid, true⟩ handler log lid).commitOp false false normalU).result =
        DispatchOutcome.raised
          (Exc.driver (DriverErr.progError "Cannot operate on a closed database.")) ∧
      ((Connection.init ⟨cid, true⟩ handler log lid).cursorOp false normal).1 =
        ⟨true, Outcome.raised
          (Exc.driver (DriverErr.progError "Cannot operate on a closed database."))⟩ ∧
      ((Connection.init ⟨cid, true⟩ handler log lid).cursorOp false normal).2 = none := by
  intro cid rcid lid cap handler log normal normalU
  simp [Connection.init, Cursor.executeOp, Cursor.executemanyOp,
    Cursor.executescriptOp, Connection.executeOp, Connection.commitOp,
    Connection.cursorOp, RealCursor.callBehavior, RealConnection.callBehavior,
    await_in_scope, CallRes.toOutcome, interruptible_dispatch, taskGroupBody,
    guard_interrupt, unwrapGroup, DispatchOutcome.toOption, Outcome.toOption]

/-- C6: when the caller is not cancelled, a dispatched call that returns a
value returns exactly that value (the watcher's unwind never replaces it),
and one that raises has the same exception re-raised bare, never wrapped in
an exception group. -/
theorem dispatch_preserves_result_and_exception :
    ∀ (α : Type) (v : α) (e : DriverErr),
      (interruptible_dispatch false false (CallRes.ok v)).result =
        DispatchOutcome.ok v ∧
      (interruptible_dispatch false false (CallRes.ok v)).result.isGroup = false ∧
      (interruptible_dispatch false false (CallRes.err e) :
          DispatchTrace α).result = DispatchOutcome.raised (Exc.driver e) ∧
      (interruptible_dispatch false false (CallRes.err e) :
          DispatchTrace α).result.isGroup = false := by
  intro α v e
  rcases e with msg | msg | ⟨n, m⟩ <;>
    simp [interruptible_dispatch, taskGroupBody, guard_interrupt, unwrapGroup,
      DispatchOutcome.isGroup]

/-- C7: when the caller's context is already cancelled before dispatch, the
dispatched operation fails with the cancellation exception and the real
sqlite3 call is never started. -/
theorem precancelled_dispatch_never_starts_call :
    ∀ (α : Type) (cancelledDuring : Bool) (call : CallRes α),
      interruptible_dispatch true cancelledDuring call =
        ⟨DispatchOutcome.raised Exc.cancelled, false⟩ := by
  intro α cd call
  rcases call with v | e <;> cases cd <;>
    simp [interruptible_dispatch, taskGroupBody, guard_interrupt, unwrapGroup]

/-- C8: `guard_interrupt` leaves the interrupt-needed flag cleared on every
path (its `finally` clause), and the watcher's interrupt loop terminates on
any flag trace that eventually reads false, after fewer iterations than the
trace is long. -/
theorem interrupt_loop_terminates :
    (∀ (α : Type) (cancelledAtStart cancelledAtErrCheck : Bool)
       (call : CallRes α),
       (guard_interrupt cancelledAtStart cancelledAtErrCheck call).needInterruptAfter
         = false) ∧
    (∀ trace : List Bool, false ∈ trace →
       ∃ n, interruptLoop trace = some n ∧ n < trace.length) := by
  constructor
  · intro α cs ce call
    rcases call with v | e <;> cases cs <;>
      simp [guard_interrupt]
    rcases e with msg | msg | ⟨n, m⟩ <;> simp [guard_interrupt]
    split <;> rfl
  · intro trace
    induction trace with
    | nil => intro h; simp at h
    | cons b rest ih =>
        intro h
        cases b with
        | false => exact ⟨0, by simp [interruptLoop], by simp⟩
        | true =>
            have hrest : false ∈ rest := by simpa using h
            obtain ⟨n, hn, hlt⟩ := ih hrest
            exact ⟨n + 1, by simp [interruptLoop, hn], by simpa using hlt⟩

/-- C8 witness: the flag is cleared after a concrete guarded call, and the
loop run on the concrete flag trace `[true, true, false]` terminates. -/
theorem interrupt_loop_terminates_witness :
    (guard_interrupt false false (CallRes.ok (0 : Nat))).needInterruptAfter
      = false ∧
    ∃ n, interruptLoop [true, true, false] = some n ∧
      n < [true, true, false].length :=
  ⟨interrupt_loop_terminates.1 Nat false false (CallRes.ok 0),
   interrupt_loop_terminates.2 [true, true, false] (by decide)⟩

/-- C9: every cursor produced by `Connection.cursor`, `Connection.execute`,
`Cursor.execute`, `Cursor.executemany` or `Cursor.executescript` holds the
same limiter as the connection or cursor that produced it. -/
theorem cursors_share_connection_limiter :
    ∀ (conn : Connection) (cur : Cursor) (cb cd cp : Bool)
      (call : CallRes RealCursor) (c : Cursor),
      ((conn.cursorOp cp call).2 = some c → c.limiter = conn.limiter) ∧
      ((conn.executeOp cb cd call).2 = some c → c.limiter = conn.limiter) ∧
      ((cur.executeOp cb cd call).2 = some c → c.limiter = cur.limiter) ∧
      ((cur.executemanyOp cb cd call).2 = some c → c.limiter = cur.limiter) ∧
      ((cur.executescriptOp cb cd call).2 = some c → c.limiter = cur.limiter) := by
  intro conn cur cb cd cp call c
  exact ⟨limiter_of_map_mk, limiter_of_map_mk, limiter_of_map_mk,
    limiter_of_map_mk, limiter_of_map_mk⟩

/-- C9 witness: a concrete cursor obtained from `Connection.cursor` holds
the connection's limiter. -/
theorem cursors_share_connection_limiter_witness :
    (Cursor.mk ⟨5, false⟩ ⟨9, 1⟩).limiter =
      (Connection.init ⟨0, false⟩ none ⟨"log"⟩ 9).limiter :=
  (cursors_share_connection_limiter (Connection.init ⟨0, false⟩ none ⟨"log"⟩ 9)
    (Cursor.mk ⟨1, false⟩ ⟨9, 1⟩) false false false (CallRes.ok ⟨5, false⟩)
    (Cursor.mk ⟨5, false⟩ ⟨9, 1⟩)).1 (by decide)

/-- C10: `exception_logger` logs the exception at error level to the given
logger and returns true, and a connection with it installed as exception
handler rolls back and then suppresses every exception raised in a scoped
use. -/
theorem exception_logger_logs_and_suppresses :
    ∀ (e : ExcInfo) (log : Logger) (rc : RealConnection) (lid : Nat)
      (exc : ExcInfo),
      exception_logger e log =
        ([⟨log.name, "ERROR", "SQLite exception", e.excVal⟩], true) ∧
      (exception_logger e log).2 = true ∧
      ((connWithExceptionLogger rc log lid).aexit (some exc)).events =
        [AexitEvent.rollback, AexitEvent.handlerInvoked exc log] ∧
      suppresses ((connWithExceptionLogger rc log lid).aexit (some exc)).returned
        = true := by
  intro e log rc lid exc
  simp [exception_logger, connWithExceptionLogger, Connection.init,
    Connection.aexit, suppresses]
